import Mathlib

/-!
Verification of the company-scraping pipeline (yc_scraper.py,
linkedin_scraper.py, linkedin_yc_search.py) against its specification.

The Python sources are shallowly embedded below.  Pure text-processing
functions become Lean functions on `String` / `List Char`; the effectful
scraping loops become functions of an injected oracle describing what the
browser session returned at each step.  Python semantics are modelled
faithfully with these documented restrictions:
* case conversion (`lower`, `isupper`, `title`, case-insensitive regex
  matching) is modelled on ASCII letters; non-ASCII characters are caseless;
* `float()` conversion is modelled on the strings actually reachable here
  (decimal digits with possible surrounding whitespace);
* whitespace (`\s`, `strip`) is the ASCII whitespace set.
-/

namespace Scraper

/-! ## Basic Python string primitives -/

/-- Python whitespace characters (`\s`, `str.strip`), ASCII range. -/
def pySpace (c : Char) : Bool :=
  c = ' ' || c = '\t' || c = '\n' || c = '\r' || c = '\x0b' || c = '\x0c'

/-- ASCII decimal digit (`\d`). -/
def isPyDigit (c : Char) : Bool := '0' ≤ c && c ≤ '9'

/-- `str.strip()` on a character list. -/
def stripChars (cs : List Char) : List Char :=
  ((cs.dropWhile pySpace).reverse.dropWhile pySpace).reverse

/-- `str.strip()`. -/
def stripStr (s : String) : String := ⟨stripChars s.data⟩

/-- `str.lower()` (ASCII). -/
def lowerStr (s : String) : String := ⟨s.data.map Char.toLower⟩

/-- Python `needle in hay` substring test, on character lists. -/
def listContainsSub (needle : List Char) : List Char → Bool
  | [] => needle.isEmpty
  | c :: rest => needle.isPrefixOf (c :: rest) || listContainsSub needle rest

/-- Python `needle in hay` substring test on strings. -/
def containsS (needle hay : String) : Bool := listContainsSub needle.data hay.data

/-- Python `s.startswith(pre)`. -/
def startsWithS (pre s : String) : Bool := pre.data.isPrefixOf s.data

/-- Python `s.split(sep)` for a single-character separator; keeps empty
segments, `"".split(c) = [""]`. -/
def splitOnChar (sep : Char) : List Char → List (List Char)
  | [] => [[]]
  | c :: rest =>
    let r := splitOnChar sep rest
    if c = sep then [] :: r
    else
      match r with
      | h :: t => (c :: h) :: t
      | [] => [[c]]

/-- `text.split(sep)` as strings, single-character separator. -/
def splitStr (sep : Char) (s : String) : List String :=
  (splitOnChar sep s.data).map (fun l => ⟨l⟩)

/-- `text.split(chr(10))`, as used throughout the sources. -/
def splitLines (s : String) : List String := splitStr '\n' s

/-- Suffix after the first occurrence of `sep`, `none` when `sep` does not
occur (helper for Python `split(sep)[-1]`). -/
def dropThroughSub (sep : List Char) : List Char → Option (List Char)
  | [] => if sep.isEmpty then some [] else none
  | c :: rest =>
    if sep.isPrefixOf (c :: rest) then some ((c :: rest).drop sep.length)
    else dropThroughSub sep rest

/-- Fuelled scan for the suffix after the last occurrence of `sep`. -/
def afterLastSubFuel (sep : List Char) : Nat → List Char → List Char
  | 0, cs => cs
  | n + 1, cs =>
    match dropThroughSub sep cs with
    | none => cs
    | some rest => afterLastSubFuel sep n rest

/-- Python `s.split(sep)[-1]` for a non-empty separator string: the suffix
after the last occurrence of `sep` (the whole string when absent). -/
def afterLastSub (sep s : String) : String :=
  ⟨afterLastSubFuel sep.data s.data.length s.data⟩

/-- ASCII letter. -/
def isAsciiAlpha (c : Char) : Bool := c.isAlpha

/-- Helper for `str.title()`: the flag records whether the previous
character was a (cased) letter. -/
def pyTitleAux : Bool → List Char → List Char
  | _, [] => []
  | prevAlpha, c :: rest =>
    let c2 := if isAsciiAlpha c then (if prevAlpha then c.toLower else c.toUpper) else c
    c2 :: pyTitleAux (isAsciiAlpha c) rest

/-- Python `str.title()` (ASCII casing). -/
def pyTitle (s : String) : String := ⟨pyTitleAux false s.data⟩

/-- Python `str.isupper()` (ASCII casing): at least one cased character and
no lowercase character. -/
def pyIsUpper (s : String) : Bool :=
  s.data.any Char.isUpper && !s.data.any Char.isLower

/-- Python `str.isdigit()` on strings: non-empty and all digits. -/
def pyIsDigitStr (s : String) : Bool :=
  !s.data.isEmpty && s.data.all isPyDigit

/-- Numeric value of a decimal-digit list. -/
def digitsToNat (cs : List Char) : Nat :=
  cs.foldl (fun a c => a * 10 + (c.toNat - 48)) 0

/-- Python `str.replace(chr(45), chr(32))`: dash to space. -/
def replaceDash (s : String) : String :=
  ⟨s.data.map (fun c => if c = '-' then ' ' else c)⟩

/-- First `n` characters of a string (Python `s[:n]` for `n ≥ 0`). -/
def strTake (n : Nat) (s : String) : String := ⟨s.data.take n⟩

/-! ## linkedin_yc_search.py — record deduplicator / merger

`LinkedInMultiPageSearch.save_results` loads `data.csv`, builds the sets of
existing normalized titles and normalized non-empty LinkedIn links, filters
the candidate batch against those sets, and appends the survivors. -/

/-- One row of the persisted store `data.csv`.  A `none` field models a
missing (NaN) CSV cell, mirroring the `pd.notna` guards. -/
structure StoreRow where
  title : Option String
  linkedinLink : Option String
deriving DecidableEq

/-- One candidate produced by the multi-page search: dict with keys
`title` and `linkedin_url`. -/
structure Candidate where
  title : String
  linkedin_url : String
deriving DecidableEq

/-- The identity normalization used throughout `save_results`:
`s.strip().lower()`. -/
def normalize (s : String) : String := lowerStr (stripStr s)

/-- `existing_companies`: normalized titles of store rows whose `Title`
cell is present. -/
def existingTitles (store : List StoreRow) : List String :=
  store.filterMap (fun r => r.title.map normalize)

/-- `existing_links`: normalized LinkedIn links of store rows whose
`Linkedin Link` cell is present and non-blank after stripping. -/
def existingLinks (store : List StoreRow) : List String :=
  store.filterMap (fun r =>
    r.linkedinLink.bind (fun l =>
      if stripStr l ≠ "" then some (normalize l) else none))

/-- `is_duplicate_title`: the candidate's normalized title is already among
the existing titles. -/
def is_duplicate_title (c : Candidate) (store : List StoreRow) : Bool :=
  (existingTitles store).contains (normalize c.title)

/-- `is_duplicate_link`: the candidate's normalized link is non-blank
(Python truthiness of `link_lower`) and already among the existing links. -/
def is_duplicate_link (c : Candidate) (store : List StoreRow) : Bool :=
  normalize c.linkedin_url ≠ "" && (existingLinks store).contains (normalize c.linkedin_url)

/-- A candidate is a duplicate when either identity key matches. -/
def is_duplicate (c : Candidate) (store : List StoreRow) : Bool :=
  is_duplicate_title c store || is_duplicate_link c store

/-- `new_companies`: the candidates accepted by one `save_results` call.
Each candidate is checked against the sets seeded from the existing store;
the sets are never extended during the loop. -/
def save_results_accepted (companies : List Candidate) (store : List StoreRow) : List Candidate :=
  companies.filter (fun c => !is_duplicate_title c store && !is_duplicate_link c store)

/-- The candidates rejected by one `save_results` call. -/
def save_results_rejected (companies : List Candidate) (store : List StoreRow) : List Candidate :=
  companies.filter (fun c => is_duplicate_title c store || is_duplicate_link c store)

/-- The store row built for an accepted candidate (the other 12 columns of
the new row hold constants or empty strings). -/
def candidateRow (c : Candidate) : StoreRow :=
  { title := some c.title, linkedinLink := some c.linkedin_url }

/-- The combined store written back by `save_results`
(`pd.concat([df, new_df])`). -/
def save_results_store (companies : List Candidate) (store : List StoreRow) : List StoreRow :=
  store ++ (save_results_accepted companies store).map candidateRow

/-- A file-system operation performed by a persisting routine; `α` is the
tabular content written. -/
inductive FileOp (α : Type) where
  | writeFile (path : String) (content : α)
  | renameFile (src dst : String)
deriving DecidableEq

/-- The sequence of file operations performed by `save_results`:
after the two early returns, a single `combined_df.to_csv` call writing
the merged table directly to `data.csv`. -/
def save_results_trace (companies : List Candidate) (store : List StoreRow) :
    List (FileOp (List StoreRow)) :=
  if companies.isEmpty then []
  else if (save_results_accepted companies store).isEmpty then []
  else [FileOp.writeFile "data.csv" (save_results_store companies store)]

/-- Specification-side predicate, written from the spec's words only
(for comparison with the code's traces): a persisted write is atomic via
write-new-then-swap when it writes the full updated store to a temporary
file and then replaces the previous store by renaming it over the
destination. -/
def specAtomicSwapWrite {α : Type} (tr : List (FileOp α)) (dst : String) : Prop :=
  ∃ tmp content, tmp ≠ dst ∧
    tr = [FileOp.writeFile tmp content, FileOp.renameFile tmp dst]

/-! ## yc_scraper.py — field extraction and batch scraping -/

/-- The fixed exclusion vocabulary of the tag extractor (batch names and
status words). -/
def TAG_EXCLUDED : List String :=
  ["SPRING 2025", "WINTER 2025", "SUMMER 2025", "ACTIVE", "INACTIVE"]

/-- The fixed list of known location names excluded from tags. -/
def TAG_CITIES : List String :=
  ["NEW YORK", "SAN FRANCISCO", "LOS ANGELES", "CHICAGO", "BOSTON", "SEATTLE"]

/-- The per-line filter of the tag extractor: entirely upper-case, length
strictly between 1 and 30, not an excluded batch/status word, and no known
city name occurring inside it. -/
def qualifiesTag (s : String) : Bool :=
  pyIsUpper s && decide (1 < s.length) && decide (s.length < 30) &&
    !TAG_EXCLUDED.contains s && !TAG_CITIES.any (fun city => containsS city s)

/-- Tag extraction from the main container text (yc_scraper block 3): each
line is stripped and kept when it qualifies. -/
def extract_tags (containerText : String) : List String :=
  (splitLines containerText).filterMap (fun l =>
    let s := stripStr l
    if qualifiesTag s then some s else none)

/-- First occurrence of four consecutive digits (the `(\d{4})` search). -/
def find4DigitsAux : List Char → Option (List Char)
  | a :: b :: c :: d :: rest =>
    if isPyDigit a && isPyDigit b && isPyDigit c && isPyDigit d then some [a, b, c, d]
    else find4DigitsAux (b :: c :: d :: rest)
  | _ => none

/-- `re.search(4 digits, text)`: the matched group or the empty string. -/
def find4Digits (s : String) : String :=
  match find4DigitsAux s.data with
  | some l => ⟨l⟩
  | none => ""

/-- First maximal digit run (the `(\d+)` search). -/
def findDigitRunAux : List Char → Option (List Char)
  | [] => none
  | c :: rest =>
    if isPyDigit c then some (c :: rest.takeWhile isPyDigit)
    else findDigitRunAux rest

/-- `re.search(1 or more digits, text)`: the matched group or the empty
string. -/
def findDigitRun (s : String) : String :=
  match findDigitRunAux s.data with
  | some l => ⟨l⟩
  | none => ""

/-- The jobs scan (yc_scraper block 7): the first line equal to `Jobs`
after stripping and followed by a digit-only line yields that next line. -/
def jobsFromLines : List String → String
  | a :: b :: rest =>
    if stripStr a = "Jobs" && pyIsDigitStr (stripStr b) then stripStr b
    else jobsFromLines (b :: rest)
  | _ => ""

/-- Cities scanned by the location fallback (yc_scraper block 6). -/
def LOC_CITIES : List String :=
  ["NEW YORK", "SAN FRANCISCO", "LOS ANGELES", "CHICAGO", "BOSTON",
   "SEATTLE", "AUSTIN", "DENVER", "MIAMI"]

/-- Domains excluded by the company-link fallback (yc_scraper block 8). -/
def EXCL_DOMAINS : List String :=
  ["ycombinator.com", "twitter.com", "linkedin.com", "facebook.com", "startupschool.org"]

/-- Keywords required of a long description (yc_scraper block 11). -/
def LONGDESC_KWS : List String :=
  ["helps", "platform", "service", "business", "solution"]

/-- The partner line scan (yc_scraper block 10, inner loop): the first line
containing `Partner` and a colon whose last colon-segment strips to a
string of length 3..49. -/
def partnerFromText (t : String) : String :=
  match (splitLines t).find? (fun line =>
      containsS "Partner" line && containsS ":" line &&
        (let pr := stripStr ((splitStr ':' line).getLastD "")
         decide (2 < pr.length) && decide (pr.length < 50))) with
  | some line => stripStr ((splitStr ':' line).getLastD "")
  | none => ""

/-- What one loaded company page offered to the extractor.  Each `Option`
field models one `try` block's element lookup: `none` means the lookup (or
attribute read) failed and the `except` branch ran. -/
structure YCPage where
  pageOk : Bool
  titleH1Bold : Option String
  titleH1 : Option String
  metaDescription : Option String
  descTextXl : Option String
  containerText : Option String
  foundedText : Option String
  teamText : Option String
  locationText : Option String
  websiteText : Option String
  pageLinks : List String
  partnerTexts : List String
  proseTexts : List String
deriving DecidableEq

/-- The data dict filled by one attempt of
`extract_company_details_with_retry`. -/
structure YCData where
  title : String
  short_description : String
  tags : String
  founded : String
  team_size : String
  location : String
  jobs : String
  company_link : String
  linkedin_link : String
  primary_partner : String
  long_description : String
  yc_page : String
deriving DecidableEq

/-- `company_name = company_url.split(sep)[-1]` with sep the
`/companies/` marker. -/
def companyNameOf (url : String) : String := afterLastSub "/companies/" url

/-- The twelve extraction blocks of one successful page-load attempt. -/
def detailsOfPage (url : String) (p : YCPage) : YCData where
  title :=
    match p.titleH1Bold with
    | some t => stripStr t
    | none =>
      match p.titleH1 with
      | some t => stripStr t
      | none => pyTitle (replaceDash (companyNameOf url))
  short_description :=
    match p.metaDescription with
    | some c => c
    | none =>
      match p.descTextXl with
      | some t => stripStr t
      | none => ""
  tags :=
    match p.containerText with
    | some t => String.intercalate ", " (extract_tags t)
    | none => ""
  founded :=
    match p.foundedText with
    | some t => find4Digits t
    | none => ""
  team_size :=
    match p.teamText with
    | some t => findDigitRun t
    | none => ""
  location :=
    match p.locationText with
    | some t =>
      let ls := splitLines t
      if 1 < ls.length then stripStr (ls.getD 1 "") else ""
    | none =>
      match p.containerText with
      | some t =>
        match LOC_CITIES.find? (fun city => containsS city t) with
        | some city => pyTitle city
        | none => ""
      | none => ""
  jobs :=
    match p.containerText with
    | some t => jobsFromLines (splitLines t)
    | none => ""
  company_link :=
    match p.websiteText with
    | some t =>
      let w := stripStr t
      if startsWithS "http" w then w else "https://" ++ w
    | none =>
      match p.pageLinks.find? (fun h =>
          startsWithS "http" h && !EXCL_DOMAINS.any (fun d => containsS d h)) with
      | some h => h
      | none => ""
  linkedin_link :=
    match p.pageLinks.find? (fun h => containsS "linkedin.com/company/" h) with
    | some h => h
    | none => ""
  primary_partner :=
    match (p.partnerTexts.take 3).find? (fun t =>
        containsS "Primary Partner" t || containsS "Partner:" t) with
    | some t => partnerFromText t
    | none => ""
  long_description :=
    match p.proseTexts.find? (fun t =>
        decide (100 < (stripStr t).length) &&
          LONGDESC_KWS.any (fun k => containsS k (lowerStr (stripStr t)))) with
    | some t => stripStr t
    | none => ""
  yc_page := url

/-- The meaningful-data check ending a successful attempt. -/
def detailsSuccess (d : YCData) : Bool :=
  d.title ≠ "" && (d.short_description ≠ "" || d.company_link ≠ "")

/-- `extract_company_details_with_retry`’s attempt loop.  The oracle
`pages i` is what attempt `i` obtained: `none` models a failed driver setup
or a raised exception, a page with `pageOk = false` models the incomplete
page-load check; both make the loop advance to the next attempt. -/
def extract_company_details_with_retry (pages : Nat → Option YCPage) (url : String) :
    Nat → Nat → Option YCData
  | 0, _ => none
  | n + 1, i =>
    match pages i with
    | none => extract_company_details_with_retry pages url n (i + 1)
    | some p =>
      if !p.pageOk then extract_company_details_with_retry pages url n (i + 1)
      else
        let d := detailsOfPage url p
        if detailsSuccess d then some d
        else extract_company_details_with_retry pages url n (i + 1)

/-- One row of the batch output CSV (scrape_batch / save_to_csv). -/
structure YCRow where
  batch : String
  title : String
  short_description : String
  tags : String
  founded : String
  team_size : String
  location : String
  jobs : String
  company_link : String
  linkedin_link : String
  primary_partner : String
  long_description : String
  yc_page : String
deriving DecidableEq

/-- The row appended in `scrape_batch` for successfully extracted details. -/
def rowOfDetails (batch : String) (d : YCData) : YCRow where
  batch := batch
  title := d.title
  short_description := d.short_description
  tags := d.tags
  founded := d.founded
  team_size := d.team_size
  location := d.location
  jobs := d.jobs
  company_link := d.company_link
  linkedin_link := d.linkedin_link
  primary_partner := d.primary_partner
  long_description := d.long_description
  yc_page := d.yc_page

/-- The fallback row appended in `scrape_batch` when every retry failed. -/
def fallbackRow (batch url : String) : YCRow where
  batch := batch
  title := pyTitle (replaceDash (companyNameOf url))
  short_description := ""
  tags := ""
  founded := ""
  team_size := ""
  location := ""
  jobs := ""
  company_link := ""
  linkedin_link := ""
  primary_partner := ""
  long_description := ""
  yc_page := url

/-- `scrape_batch` over an injected per-URL attempt oracle: every URL
yields exactly one row, regardless of how its attempts went
(`max_retries = 3`). -/
def scrape_batch (batch : String) (pages : String → Nat → Option YCPage)
    (urls : List String) : List YCRow :=
  urls.map (fun url =>
    match extract_company_details_with_retry (pages url) url 3 0 with
    | some d => rowOfDetails batch d
    | none => fallbackRow batch url)

/-- `df.drop_duplicates(subset Title, keep first)`: keep the first row for
each exact title. -/
def dropDupByTitle (seen : List String) : List YCRow → List YCRow
  | [] => []
  | r :: rest =>
    if seen.contains r.title then dropDupByTitle seen rest
    else r :: dropDupByTitle (r.title :: seen) rest

/-- The table written by `save_to_csv`: exact-title deduplication of the
batch rows (column reordering does not alter rows). -/
def save_to_csv_rows (companies : List YCRow) : List YCRow :=
  dropDupByTitle [] companies

/-- File operations performed by `save_to_csv`: after the empty-input early
return, a single direct `df.to_csv(filename)` write. -/
def save_to_csv_trace (companies : List YCRow) (filename : String) :
    List (FileOp (List YCRow)) :=
  if companies.isEmpty then []
  else [FileOp.writeFile filename (save_to_csv_rows companies)]

/-! ## linkedin_scraper.py — follower-count extraction

`LinkedInScraper.extract_followers_count` runs an ordered table of sixteen
case-insensitive regular expressions over the page text.  Every pattern has
one of two shapes, where NUM denotes the captured group
`[\d\s,.]+(?:\.\d+)?[KMB]?`:
* number-then-keyword: `NUM \s+ keyword`;
* keyword-then-number: `keyword \s* :? \s* NUM` (the group ends the
  pattern).
The backtracking matcher below reproduces the leftmost search and the
greedy/backtracking alternative order of `re.search` for exactly these two
shapes.  The inner `(?:\.\d+)?` branch is subsumed: its characters all lie
in the `[\d\s,.]` class, so any match using it is also found — earlier in
the backtracking order and with the same captured group — by a longer run
of the leading class. -/

/-- Membership in the numeric character class `[\d\s,.]`. -/
def numClass (c : Char) : Bool := isPyDigit c || pySpace c || c = ',' || c = '.'

/-- Case-insensitive `[KMB]` (the patterns carry IGNORECASE). -/
def isKMBci (c : Char) : Bool := c.toLower = 'k' || c.toLower = 'm' || c.toLower = 'b'

/-- Case-insensitive character comparison (ASCII). -/
def ciEq (a b : Char) : Bool := a.toLower = b.toLower

/-- Case-insensitive prefix test: does the needle start the haystack? -/
def ciStarts : List Char → List Char → Bool
  | [], _ => true
  | _ :: _, [] => false
  | a :: as2, b :: bs => ciEq a b && ciStarts as2 bs

/-- Length of the leading `[\d\s,.]+` run. -/
def classRunLen (cs : List Char) : Nat := (cs.takeWhile numClass).length

/-- `\s+` followed by one of the keywords (each keyword's optional final
letter, `s?` or similar, ends the pattern and never constrains success).
The keywords start with non-space letters, so the greedy `\s+` must consume
the whole space run. -/
def spacePlusKw (kws : List (List Char)) (cs : List Char) : Bool :=
  match cs with
  | [] => false
  | c :: _ => pySpace c && kws.any (fun kw => ciStarts kw (cs.dropWhile pySpace))

/-- First success of `f` over `k, k-1, ..., 1` (greedy backtracking over a
one-or-more repetition length). -/
def firstSomeDesc {α : Type} (f : Nat → Option α) : Nat → Option α
  | 0 => none
  | k + 1 => (f (k + 1)).orElse (fun _ => firstSomeDesc f k)

/-- First success of `f` over `k, k-1, ..., 0` (greedy backtracking over a
zero-or-more repetition length). -/
def firstSomeDescZ {α : Type} (f : Nat → Option α) : Nat → Option α
  | 0 => f 0
  | k + 1 => (f (k + 1)).orElse (fun _ => firstSomeDescZ f k)

/-- Try the number-then-keyword shape with the match starting here: the
group is a class run of backtracked length plus an optional `[KMB]` letter,
followed by `\s+ keyword`.  Returns the captured group. -/
def shape1At (kws : List (List Char)) (cs : List Char) : Option (List Char) :=
  firstSomeDesc (fun k =>
    let g := cs.take k
    match cs.drop k with
    | c :: rest =>
      if isKMBci c && spacePlusKw kws rest then some (g ++ [c])
      else if spacePlusKw kws (c :: rest) then some g
      else none
    | [] => none) (classRunLen cs)

/-- The trailing group `NUM` with nothing after it: the maximal class run
(at least one character) plus an optional `[KMB]` letter. -/
def groupHere (cs : List Char) : Option (List Char) :=
  let n := classRunLen cs
  if n = 0 then none
  else
    match cs.drop n with
    | c :: _ => if isKMBci c then some (cs.take n ++ [c]) else some (cs.take n)
    | [] => some (cs.take n)

/-- `\s*` then the trailing group, backtracking the space run greedily
(spaces left unconsumed may become part of the group, as in `re`). -/
def spacesThenGroup (cs : List Char) : Option (List Char) :=
  firstSomeDescZ (fun j => groupHere (cs.drop j)) (cs.takeWhile pySpace).length

/-- `\s* :? \s*` then the trailing group, with the full backtracking order
of `re`: first space run greedy, colon greedy, second space run greedy. -/
def sepThenGroup (cs : List Char) : Option (List Char) :=
  firstSomeDescZ (fun j =>
    let r := cs.drop j
    match r with
    | ':' :: r2 => (spacesThenGroup r2).orElse (fun _ => spacesThenGroup r)
    | _ => spacesThenGroup r) (cs.takeWhile pySpace).length

/-- Try the keyword-then-number shape with the match starting here: the
keyword (with greedy optional final letter), a separator, then the captured
group. -/
def shape2At (kw : List Char) (optChar : Option Char) (cs : List Char) :
    Option (List Char) :=
  if ciStarts kw cs then
    let rest := cs.drop kw.length
    match optChar, rest with
    | some oc, c :: rest2 =>
      if ciEq oc c then (sepThenGroup rest2).orElse (fun _ => sepThenGroup rest)
      else sepThenGroup rest
    | _, _ => sepThenGroup rest
  else none

/-- Leftmost search: try the shape at every position, earliest first. -/
def searchPos {α : Type} (tryAt : List Char → Option α) : List Char → Option α
  | [] => tryAt []
  | c :: rest => (tryAt (c :: rest)).orElse (fun _ => searchPos tryAt rest)

/-- One entry of the ordered pattern table. -/
inductive FollowerPat where
  | numThenKw (kws : List String)
  | kwThenNum (kw : String) (optChar : Option Char)

/-- Run one pattern over the text, returning the captured group. -/
def patSearch : FollowerPat → List Char → Option (List Char)
  | .numThenKw kws, cs => searchPos (shape1At (kws.map String.data)) cs
  | .kwThenNum kw oc, cs => searchPos (shape2At kw.data oc) cs

/-- The ordered pattern table of `extract_followers_count`: English,
Russian, German, French, Spanish, Portuguese, Italian, Dutch, then the
general multi-keyword pattern.  Keywords are the literal parts before the
optional final letter. -/
def followerPatterns : List FollowerPat :=
  [ .numThenKw ["follower"],
    .kwThenNum "follower" (some 's'),
    .numThenKw ["отслеживающих"],
    .numThenKw ["подписчик"],
    .kwThenNum "отслеживающи" (some 'х'),
    .numThenKw ["Follower"],
    .kwThenNum "Follower" none,
    .numThenKw ["abonné"],
    .kwThenNum "abonné" (some 's'),
    .numThenKw ["seguidore"],
    .kwThenNum "seguidore" (some 's'),
    .numThenKw ["seguidore"],
    .numThenKw ["follower"],
    .numThenKw ["volger"],
    .kwThenNum "volger" (some 's'),
    .numThenKw ["follower", "отслеживающих", "подписчик", "Follower",
                "abonné", "seguidore", "volger"] ]

/-- `float()` applied to the strings reachable after the separator removal:
residual whitespace around a digit run parses; anything else raises
(modelled as `none`). -/
def pyFloatDigits (cs : List Char) : Option Nat :=
  let t := stripChars cs
  if t.isEmpty then none
  else if t.all isPyDigit then some (digitsToNat t) else none

/-- Processing of a captured group: remove spaces, commas and dots; then a
case-sensitive `K` / `M` / `B` suffix multiplies the float value of the
rest, and otherwise an all-digit string is returned as is.  A parse failure
falls through to the next pattern (`none`). -/
def processGroup (g : List Char) : Option Nat :=
  let cs := g.filter (fun c => !(c = ' ' || c = ',' || c = '.'))
  match cs.getLast? with
  | some 'K' => (pyFloatDigits cs.dropLast).map (· * 1000)
  | some 'M' => (pyFloatDigits cs.dropLast).map (· * 1000000)
  | some 'B' => (pyFloatDigits cs.dropLast).map (· * 1000000000)
  | _ => if !cs.isEmpty && cs.all isPyDigit then some (digitsToNat cs) else none

/-- First success over the pattern table. -/
def firstPatternValue (cs : List Char) : List FollowerPat → Option Nat
  | [] => none
  | p :: ps => ((patSearch p cs).bind processGroup).orElse
      (fun _ => firstPatternValue cs ps)

/-- `LinkedInScraper.extract_followers_count`: the numeric value of the
returned count string, `none` when the Python function returns `None`. -/
def extract_followers_count (text : String) : Option Nat :=
  firstPatternValue text.data followerPatterns

/-! ## linkedin_scraper.py — batch indicator and per-record scrape -/

/-- `check_yc_batch_indicator`'s canonical-form table: only the three 2025
batch labels produce indicators; every other label yields the empty list. -/
def batch_indicators (batch_name : String) : List String :=
  if containsS "Spring 2025" batch_name then
    ["X25", "Spring 2025", "YC X25", "YC Spring 2025", "Spring \x2725"]
  else if containsS "Summer 2025" batch_name then
    ["S25", "Summer 2025", "YC S25", "YC Summer 2025", "Summer \x2725"]
  else if containsS "Winter 2025" batch_name then
    ["W25", "Winter 2025", "YC W25", "YC Winter 2025", "Winter \x2725"]
  else []

/-- `check_yc_batch_indicator`: some canonical form occurs in the text,
case-insensitively. -/
def check_yc_batch_indicator (text batch_name : String) : Bool :=
  (batch_indicators batch_name).any (fun ind => containsS (lowerStr ind) (lowerStr text))

/-- What one attempt of `scrape_linkedin_company` obtained from the
browser: a failed driver setup, an exception with its message, or the body
text of the loaded page. -/
inductive LIAttempt where
  | setupFail
  | exn (msg : String)
  | page (text : String)

/-- The result dict of `scrape_linkedin_company`. -/
structure LIResult where
  linkedin_url : String
  followers_count : Option Nat
  has_yc_batch_indicator : Bool
  error : Option String
deriving DecidableEq

/-- The early-return result for a missing or empty URL. -/
def noUrlResult : LIResult where
  linkedin_url := ""
  followers_count := none
  has_yc_batch_indicator := false
  error := some "No LinkedIn URL provided"

/-- The result built from a successfully loaded page: an explicit
not-found marker ends the record with an error; otherwise the follower
count and batch indicator are extracted and the error is absent. -/
def liPageResult (u batch text : String) : LIResult :=
  if containsS "Page not found" text || containsS "This page doesn\x27t exist" text then
    { linkedin_url := u, followers_count := none,
      has_yc_batch_indicator := false, error := some "Page not found" }
  else
    { linkedin_url := u, followers_count := extract_followers_count text,
      has_yc_batch_indicator := check_yc_batch_indicator text batch,
      error := none }

/-- The attempt loop of `scrape_linkedin_company`.  The second returned
component counts driver setups (sessions started).  An exception returns
its truncated message only on the last attempt; earlier failures advance
to the next attempt. -/
def liAttemptLoop (u batch : String) (attempts : Nat → LIAttempt) :
    Nat → Nat → Nat → LIResult × Nat
  | 0, _, used =>
    ({ linkedin_url := u, followers_count := none,
       has_yc_batch_indicator := false, error := some "All attempts failed" }, used)
  | n + 1, i, used =>
    match attempts i with
    | .setupFail => liAttemptLoop u batch attempts n (i + 1) (used + 1)
    | .exn m =>
      if n = 0 then
        ({ linkedin_url := u, followers_count := none,
           has_yc_batch_indicator := false, error := some (strTake 100 m) }, used + 1)
      else liAttemptLoop u batch attempts n (i + 1) (used + 1)
    | .page t => (liPageResult u batch t, used + 1)

/-- `scrape_linkedin_company`: a missing (`none`, modelling NaN) or empty
URL returns immediately with no session started; otherwise the URL gains an
https scheme when needed and the attempt loop runs (`max_retries` defaults
to 2 at the call sites). -/
def scrape_linkedin_company (url : Option String) (batch : String)
    (attempts : Nat → LIAttempt) (max_retries : Nat) : LIResult × Nat :=
  match url with
  | none => (noUrlResult, 0)
  | some u =>
    if u = "" then (noUrlResult, 0)
    else
      let u2 := if startsWithS "http" u then u else "https://" ++ u
      liAttemptLoop u2 batch attempts max_retries 0 0

/-- Independent description of a successful run of the attempt loop: the
first deciding attempt retrieved a page free of the not-found markers.  A
setup failure defers to the next attempt; an exception decides (negatively)
only on the last attempt. -/
def liCleanPage (attempts : Nat → LIAttempt) : Nat → Nat → Bool
  | 0, _ => false
  | n + 1, i =>
    match attempts i with
    | .setupFail => liCleanPage attempts n (i + 1)
    | .exn _ => if n = 0 then false else liCleanPage attempts n (i + 1)
    | .page t =>
      !(containsS "Page not found" t || containsS "This page doesn\x27t exist" t)

/-! ## linkedin_yc_search.py — scroll/convergence engine

`LinkedInMultiPageSearch.search_page` runs up to 20 scrolling rounds.
After round `r` it re-reads the body text and counts the batch marker;
reaching 10 or more markers breaks the loop, and the no-progress branch
(page refresh) never breaks it.  After the loop the method always proceeds
to extract whatever is on the page.  The marker counts measured after each
round are injected as `sig`, with `sig 0` the initial count. -/

/-- The convergence threshold of the scrolling loop. -/
def EXPECTED_MIN : Nat := 10

/-- The round budget of the scrolling loop. -/
def MAX_ROUNDS : Nat := 20

/-- How the scrolling loop ended. -/
inductive ScrollExit where
  | converged
  | exhausted
deriving DecidableEq

/-- The scrolling loop: `n` rounds remain and `r` rounds have run.  The
loop converges at the first round whose measured count reaches
`EXPECTED_MIN`, and is exhausted after the full budget otherwise. -/
def scrollLoopAux (sig : Nat → Nat) : Nat → Nat → ScrollExit × Nat
  | 0, r => (ScrollExit.exhausted, r)
  | n + 1, r =>
    if EXPECTED_MIN ≤ sig (r + 1) then (ScrollExit.converged, r + 1)
    else scrollLoopAux sig n (r + 1)

/-- The full scrolling phase of `search_page`. -/
def scroll_rounds (sig : Nat → Nat) : ScrollExit × Nat :=
  scrollLoopAux sig MAX_ROUNDS 0

/-- `search_page` after the scrolling phase: whatever exit was reached, the
content present at the final round is extracted and returned (the injected
`content` maps a round index to the companies extractable there); no
exception arises from the convergence logic. -/
def search_page_outcome {α : Type} (sig : Nat → Nat) (content : Nat → α) :
    (ScrollExit × Nat) × α :=
  (scroll_rounds sig, content (scroll_rounds sig).2)

/-! ## Concrete fixtures used by the theorems below -/

/-- A batch row titled `Acme` with all other extracted fields empty. -/
def rowAcme1 : YCRow where
  batch := "B"
  title := "Acme"
  short_description := ""
  tags := ""
  founded := ""
  team_size := ""
  location := ""
  jobs := ""
  company_link := ""
  linkedin_link := ""
  primary_partner := ""
  long_description := ""
  yc_page := ""

/-- A batch row titled `acme` (same title up to case) with all other
extracted fields empty. -/
def rowAcme2 : YCRow where
  batch := "B"
  title := "acme"
  short_description := ""
  tags := ""
  founded := ""
  team_size := ""
  location := ""
  jobs := ""
  company_link := ""
  linkedin_link := ""
  primary_partner := ""
  long_description := ""
  yc_page := ""

/-- A company page on which every extraction block succeeds with a
non-blank value. -/
def fullPage : YCPage where
  pageOk := true
  titleH1Bold := some "Acme Co"
  titleH1 := none
  metaDescription := some "Acme builds enterprise tools."
  descTextXl := none
  containerText := some "ENTERPRISE SOFTWARE\nJobs\n4"
  foundedText := some "Founded: 2024"
  teamText := some "Team Size: 12"
  locationText := some "Location:\nBerlin"
  websiteText := some "https://acme.example"
  pageLinks := ["https://www.linkedin.com/company/acme-co/"]
  partnerTexts := ["Primary Partner: Jane Roe"]
  proseTexts := ["Acme Co is a platform that helps large enterprise teams organize their operations, automate reporting workflows and keep every department aligned."]

/-- The batch row that `scrape_batch` produces from `fullPage`. -/
def fullRow : YCRow where
  batch := "Summer 2025"
  title := "Acme Co"
  short_description := "Acme builds enterprise tools."
  tags := "ENTERPRISE SOFTWARE"
  founded := "2024"
  team_size := "12"
  location := "Berlin"
  jobs := "4"
  company_link := "https://acme.example"
  linkedin_link := "https://www.linkedin.com/company/acme-co/"
  primary_partner := "Jane Roe"
  long_description := "Acme Co is a platform that helps large enterprise teams organize their operations, automate reporting workflows and keep every department aligned."
  yc_page := "https://www.ycombinator.com/companies/acme-co"

/-! ## Helper lemmas -/

/-- The tag filter unfolded into its five conditions. -/
theorem qualifiesTag_iff (s : String) :
    qualifiesTag s = true ↔
      (pyIsUpper s = true ∧ 1 < s.length ∧ s.length < 30 ∧
       s ∉ TAG_EXCLUDED ∧ ∀ city ∈ TAG_CITIES, containsS city s = false) := by
  simp [qualifiesTag, Bool.and_eq_true, decide_eq_true_eq, Bool.not_eq_true',
    List.elem_iff, List.any_eq_true]
  tauto

/-- Rows surviving the exact-title deduplication avoid the seen set. -/
theorem dropDupByTitle_not_seen (cs : List YCRow) :
    ∀ seen : List String, ∀ r ∈ dropDupByTitle seen cs, r.title ∉ seen := by
  induction cs with
  | nil => intro seen r hr; cases hr
  | cons a rest ih =>
    intro seen r hr
    rw [dropDupByTitle] at hr
    by_cases h : seen.contains a.title = true
    · rw [if_pos h] at hr; exact ih seen r hr
    · rw [if_neg h] at hr
      rcases List.mem_cons.1 hr with rfl | hr2
      · exact fun hmem => h (List.elem_iff.2 hmem)
      · intro hmem
        exact ih (a.title :: seen) r hr2 (List.mem_cons_of_mem _ hmem)

/-- Exact-title deduplication leaves pairwise-distinct titles. -/
theorem dropDupByTitle_pairwise (cs : List YCRow) :
    ∀ seen : List String,
      (dropDupByTitle seen cs).Pairwise (fun a b => a.title ≠ b.title) := by
  induction cs with
  | nil => intro seen; exact List.Pairwise.nil
  | cons a rest ih =>
    intro seen
    rw [dropDupByTitle]
    by_cases h : seen.contains a.title = true
    · rw [if_pos h]; exact ih seen
    · rw [if_neg h]
      refine List.Pairwise.cons ?_ (ih (a.title :: seen))
      intro b hb heq
      exact dropDupByTitle_not_seen rest (a.title :: seen) b hb
        (heq ▸ List.mem_cons_self _ _)

/-- Accepted candidates clash with no pre-existing identity key. -/
theorem accepted_keys_fresh :
    ∀ (cands : List Candidate) (store : List StoreRow) (c : Candidate),
      c ∈ save_results_accepted cands store →
        normalize c.title ∉ existingTitles store ∧
        (normalize c.linkedin_url = "" ∨
          normalize c.linkedin_url ∉ existingLinks store) := by
  intro cands store c hc
  obtain ⟨-, hf⟩ := List.mem_filter.1 hc
  simp only [Bool.and_eq_true, Bool.not_eq_true'] at hf
  obtain ⟨h1, h2⟩ := hf
  constructor
  · intro hmem
    rw [is_duplicate_title] at h1
    have h3 := List.elem_iff.2 hmem
    simp only [List.contains] at h1
    rw [h1] at h3
    cases h3
  · rw [is_duplicate_link] at h2
    by_cases he : normalize c.linkedin_url = ""
    · exact Or.inl he
    · right
      intro hmem
      have h3 := List.elem_iff.2 hmem
      simp only [List.contains] at h2
      simp [he, h3] at h2
      exact h2 hmem

/-- Behaviour of the scrolling loop when the signal first reaches the
threshold at round `R` inside the remaining budget. -/
theorem scrollLoopAux_conv (sig : Nat → Nat) :
    ∀ (n r R : Nat), r < R → R ≤ r + n → EXPECTED_MIN ≤ sig R →
      (∀ i, r < i → i < R → sig i < EXPECTED_MIN) →
      scrollLoopAux sig n r = (ScrollExit.converged, R) := by
  intro n
  induction n with
  | zero => intro r R h1 h2 _ _; omega
  | succ m ih =>
    intro r R h1 h2 hR hmin
    rw [scrollLoopAux]
    by_cases hc : EXPECTED_MIN ≤ sig (r + 1)
    · rw [if_pos hc]
      have : R = r + 1 := by
        by_contra hne
        have : r + 1 < R := by omega
        exact absurd hc (by have := hmin (r + 1) (by omega) this; omega)
      rw [this]
    · rw [if_neg hc]
      have hne : R ≠ r + 1 := fun h => hc (h ▸ hR)
      exact ih (r + 1) R (by omega) (by omega) hR
        (fun i hi1 hi2 => hmin i (by omega) hi2)

/-- Behaviour of the scrolling loop when the signal stays below the
threshold for the whole remaining budget. -/
theorem scrollLoopAux_exh (sig : Nat → Nat) :
    ∀ (n r : Nat), (∀ i, r < i → i ≤ r + n → sig i < EXPECTED_MIN) →
      scrollLoopAux sig n r = (ScrollExit.exhausted, r + n) := by
  intro n
  induction n with
  | zero => intro r _; rfl
  | succ m ih =>
    intro r h
    rw [scrollLoopAux]
    rw [if_neg (by have := h (r + 1) (by omega) (by omega); omega)]
    rw [ih (r + 1) (fun i hi1 hi2 => h i (by omega) (by omega))]
    congr 1
    omega

/-- The LinkedIn attempt loop reports no error exactly when its first
deciding attempt retrieved a page free of the not-found markers. -/
theorem liLoop_error_iff (attempts : Nat → LIAttempt) (u batch : String) :
    ∀ (n i used : Nat),
      ((liAttemptLoop u batch attempts n i used).1.error = none ↔
        liCleanPage attempts n i = true) := by
  intro n
  induction n with
  | zero => intro i used; simp [liAttemptLoop, liCleanPage]
  | succ m ih =>
    intro i used
    rw [liAttemptLoop, liCleanPage]
    cases h : attempts i with
    | setupFail => exact ih (i + 1) (used + 1)
    | exn msg =>
      by_cases hm : m = 0
      · subst hm; simp
      · simp only [if_neg hm]
        exact ih (i + 1) (used + 1)
    | page t =>
      by_cases hnf : (containsS "Page not found" t ||
          containsS "This page doesn\x27t exist" t) = true
      · simp [liPageResult, hnf]
      · simp only [Bool.not_eq_true] at hnf
        simp [liPageResult, hnf]

/-! ## Claim theorems -/

/-- C1 (counterexample): merging a batch that contains two identical
candidate records (same title, same link) against the empty store accepts
both of them, not exactly one — `save_results` checks candidates only
against the pre-existing identity sets, never against each other. -/
theorem c1_counterexample :
    (save_results_accepted
      [⟨"Acme", "site.example/company/acme"⟩, ⟨"Acme", "site.example/company/acme"⟩]
      []).length = 2 ∧
    ¬(save_results_accepted
      [⟨"Acme", "site.example/company/acme"⟩, ⟨"Acme", "site.example/company/acme"⟩]
      []).length = 1 := by
  constructor <;> decide

/-- C1 (amended): within one `save_results` call each candidate is filtered
only against the pre-existing store, so a batch holding two identical
candidates either keeps both (when neither identity key is already in the
store) or rejects both. -/
theorem c1_merge_not_self_dedup :
    ∀ (store : List StoreRow) (c : Candidate),
      save_results_accepted [c, c] store =
        (if is_duplicate c store then [] else [c, c]) := by
  intro store c
  rw [save_results_accepted, is_duplicate]
  cases h1 : is_duplicate_title c store <;> cases h2 : is_duplicate_link c store <;>
    simp [List.filter, h1, h2]

/-- C2 (counterexample): `extract_followers_count` applied to
`1.2K followers` does not return 1200 — the separator removal deletes the
decimal point before the `K` multiplier applies, yielding 12000. -/
theorem c2_counterexample :
    extract_followers_count "1.2K followers" ≠ some 1200 ∧
    extract_followers_count "1.2K followers" = some 12000 := by
  exact ⟨by decide, rfl⟩

/-- C2 (amended): `extract_followers_count` yields 12000 on
`1.2K followers` (dots, commas and spaces are stripped before the
magnitude suffix multiplies), 3000000 on `3M abonnés`, and none on
`no mention here`. -/
theorem c2_extract_numeric_count :
    extract_followers_count "1.2K followers" = some 12000 ∧
    extract_followers_count "3M abonnés" = some 3000000 ∧
    extract_followers_count "no mention here" = none := by
  exact ⟨rfl, rfl, rfl⟩

/-- C3: a candidate is a duplicate iff its normalized title is among the
existing normalized titles, or its normalized link is non-empty and among
the existing normalized non-empty links; the rejected set is exactly the
duplicates; and on the store holding Acme with its link, the three
candidates of the end-to-end scenario are rejected (duplicate title),
accepted, and rejected (duplicate link, not duplicate title)
respectively. -/
theorem c3_duplicate_decision_rule :
    (∀ (c : Candidate) (store : List StoreRow),
      is_duplicate c store = true ↔
        (normalize c.title ∈ existingTitles store ∨
          (normalize c.linkedin_url ≠ "" ∧
            normalize c.linkedin_url ∈ existingLinks store))) ∧
    (∀ (cands : List Candidate) (store : List StoreRow),
      save_results_rejected cands store =
        cands.filter (fun c => is_duplicate c store)) ∧
    (is_duplicate_title ⟨"Acme", "site.example/company/acme-inc"⟩
        [⟨some "Acme", some "site.example/company/acme"⟩] = true ∧
      save_results_accepted [⟨"Beta", ""⟩]
        [⟨some "Acme", some "site.example/company/acme"⟩] = [⟨"Beta", ""⟩] ∧
      is_duplicate_title ⟨"", "site.example/company/acme"⟩
        [⟨some "Acme", some "site.example/company/acme"⟩] = false ∧
      is_duplicate_link ⟨"", "site.example/company/acme"⟩
        [⟨some "Acme", some "site.example/company/acme"⟩] = true) := by
  refine ⟨?_, ?_, by decide⟩
  · intro c store
    rw [is_duplicate, is_duplicate_title, is_duplicate_link]
    simp only [Bool.or_eq_true, Bool.and_eq_true, decide_eq_true_eq,
      List.contains, List.elem_iff]
  · intro cands store
    rfl

/-- C4 (counterexample): the merge of one fresh candidate into the empty
store is persisted by a single direct write to `data.csv`; that trace is
not of the write-temporary-then-rename form the claim requires. -/
theorem c4_counterexample :
    ¬ specAtomicSwapWrite
      (save_results_trace [⟨"Acme", "site.example/company/acme"⟩] []) "data.csv" := by
  rintro ⟨tmp, content, hne, heq⟩
  have h1 : save_results_trace [⟨"Acme", "site.example/company/acme"⟩] [] =
      [FileOp.writeFile "data.csv"
        (save_results_store [⟨"Acme", "site.example/company/acme"⟩] [])] := rfl
  rw [h1] at heq
  simp at heq

/-- C4 (amended): every persisted write of the record store — the merge in
`save_results` and the batch save in `save_to_csv` — is one direct
overwrite of the destination file; no temporary file and no swap are
involved, so an interrupted write is not protected. -/
theorem c4_store_write_direct_overwrite :
    (∀ (companies : List Candidate) (store : List StoreRow),
      companies ≠ [] → save_results_accepted companies store ≠ [] →
      save_results_trace companies store =
        [FileOp.writeFile "data.csv" (save_results_store companies store)]) ∧
    (∀ (companies : List YCRow) (filename : String), companies ≠ [] →
      save_to_csv_trace companies filename =
        [FileOp.writeFile filename (save_to_csv_rows companies)]) := by
  constructor
  · intro companies store h1 h2
    rw [save_results_trace]
    rw [if_neg (by simp [List.isEmpty_iff, h1]), if_neg (by simp [List.isEmpty_iff, h2])]
  · intro companies filename h1
    rw [save_to_csv_trace, if_neg (by simp [List.isEmpty_iff, h1])]

/-- Witness for C4: the direct-overwrite shape evaluated at concrete
inputs with non-empty batches. -/
theorem c4_store_write_witness :
    save_results_trace [⟨"Acme", "site.example/company/acme"⟩] [] =
      [FileOp.writeFile "data.csv"
        (save_results_store [⟨"Acme", "site.example/company/acme"⟩] [])] ∧
    save_to_csv_trace [rowAcme1] "yc_summer_2025_companies.csv" =
      [FileOp.writeFile "yc_summer_2025_companies.csv" (save_to_csv_rows [rowAcme1])] :=
  ⟨c4_store_write_direct_overwrite.1 _ _ (by decide) (by decide),
   c4_store_write_direct_overwrite.2 [rowAcme1] _ (by decide)⟩

/-- C5 (counterexample): a batch save of two rows titled `Acme` and `acme`
keeps both, and they share a normalized title — the batch save
deduplicates on exact titles only, so the claimed normalized-uniqueness
invariant fails. -/
theorem c5_counterexample :
    save_to_csv_rows [rowAcme1, rowAcme2] = [rowAcme1, rowAcme2] ∧
    rowAcme1 ≠ rowAcme2 ∧
    normalize rowAcme1.title = normalize rowAcme2.title := by
  refine ⟨rfl, by decide, rfl⟩

/-- C5 (amended): after the batch save no two rows share an exact title,
and every candidate accepted by the merge has a normalized title absent
from the pre-existing titles and a normalized link that is empty or absent
from the pre-existing non-empty links; uniqueness up to normalization
across the whole store is not maintained. -/
theorem c5_store_uniqueness :
    (∀ companies : List YCRow,
      (save_to_csv_rows companies).Pairwise (fun a b => a.title ≠ b.title)) ∧
    (∀ (cands : List Candidate) (store : List StoreRow) (c : Candidate),
      c ∈ save_results_accepted cands store →
        normalize c.title ∉ existingTitles store ∧
        (normalize c.linkedin_url = "" ∨
          normalize c.linkedin_url ∉ existingLinks store)) :=
  ⟨fun companies => dropDupByTitle_pairwise companies [], accepted_keys_fresh⟩

/-- Witness for C5: the accepted candidate `Beta` of the end-to-end
scenario clashes with no identity key of the existing store. -/
theorem c5_store_uniqueness_witness :
    normalize "Beta" ∉
      existingTitles [⟨some "Acme", some "site.example/company/acme"⟩] ∧
    (normalize "" = "" ∨
      normalize "" ∉
        existingLinks [⟨some "Acme", some "site.example/company/acme"⟩]) :=
  c5_store_uniqueness.2 [⟨"Beta", ""⟩]
    [⟨some "Acme", some "site.example/company/acme"⟩] ⟨"Beta", ""⟩ (by decide)

/-- C6: a string is returned as a tag from a container text iff some line
of the text strips to it and it is entirely upper-case, of length in
[2, 30), not one of the excluded batch/status words, and containing none
of the known location names. -/
theorem c6_tag_extraction_membership :
    ∀ (text tag : String),
      tag ∈ extract_tags text ↔
        ((∃ l ∈ splitLines text, stripStr l = tag) ∧
         pyIsUpper tag = true ∧ 1 < tag.length ∧ tag.length < 30 ∧
         tag ∉ TAG_EXCLUDED ∧ ∀ city ∈ TAG_CITIES, containsS city tag = false) := by
  intro text tag
  rw [extract_tags, List.mem_filterMap]
  constructor
  · rintro ⟨l, hl, hif⟩
    by_cases hq : qualifiesTag (stripStr l) = true
    · rw [if_pos hq] at hif
      obtain rfl := Option.some.inj hif
      exact ⟨⟨l, hl, rfl⟩, (qualifiesTag_iff _).1 hq⟩
    · rw [if_neg hq] at hif; cases hif
  · rintro ⟨⟨l, hl, rfl⟩, hcond⟩
    refine ⟨l, hl, ?_⟩
    rw [if_pos ((qualifiesTag_iff _).2 hcond)]

/-- C7 (counterexample): an injected marker count that never changes but
sits at 15 — already above the expected minimum — makes the engine
converge on the first round; it does not terminate in the exhausted state
as the claim requires of every never-changing count sequence. -/
theorem c7_counterexample :
    (scroll_rounds (fun _ => 15)).1 = ScrollExit.converged ∧
    (scroll_rounds (fun _ => 15)).1 ≠ ScrollExit.exhausted := by
  refine ⟨rfl, by decide⟩

/-- C7 (amended): if the injected count first reaches the expected minimum
at round R ≤ MAX_ROUNDS, the engine stops scrolling converged at round R
and returns the content present there; and if the count never changes and
stays below the expected minimum, the engine terminates exhausted after
the full round budget, still returning the content present, with no
error. -/
theorem c7_scroll_convergence :
    ∀ (sig : Nat → Nat) (content : Nat → List Candidate),
      (∀ R : Nat, 1 ≤ R → R ≤ MAX_ROUNDS → EXPECTED_MIN ≤ sig R →
        (∀ i, 1 ≤ i → i < R → sig i < EXPECTED_MIN) →
        search_page_outcome sig content = ((ScrollExit.converged, R), content R)) ∧
      ((∀ i, i ≤ MAX_ROUNDS → sig i = sig 0) → sig 0 < EXPECTED_MIN →
        search_page_outcome sig content =
          ((ScrollExit.exhausted, MAX_ROUNDS), content MAX_ROUNDS)) := by
  intro sig content
  constructor
  · intro R h1 h2 hR hmin
    have hloop : scroll_rounds sig = (ScrollExit.converged, R) :=
      scrollLoopAux_conv sig MAX_ROUNDS 0 R (by omega) (by omega) hR
        (fun i hi1 hi2 => hmin i (by omega) hi2)
    rw [search_page_outcome, hloop]
  · intro hconst h0
    have hloop : scroll_rounds sig = (ScrollExit.exhausted, MAX_ROUNDS) :=
      scrollLoopAux_exh sig MAX_ROUNDS 0
        (fun i hi1 hi2 => by rw [hconst i (by omega)]; exact h0)
    rw [search_page_outcome, hloop]

/-- Witness for C7: a count reaching 12 from round 3 converges at round 3
with the round-3 content, and a count constant at 2 exhausts the budget. -/
theorem c7_scroll_convergence_witness :
    search_page_outcome (fun i => if 3 ≤ i then 12 else 0)
        (fun _ => [(⟨"Acme", ""⟩ : Candidate)]) =
      ((ScrollExit.converged, 3), [⟨"Acme", ""⟩]) ∧
    search_page_outcome (fun _ => 2) (fun _ => [(⟨"Acme", ""⟩ : Candidate)]) =
      ((ScrollExit.exhausted, MAX_ROUNDS), [⟨"Acme", ""⟩]) := by
  constructor
  · exact (c7_scroll_convergence (fun i => if 3 ≤ i then 12 else 0)
      (fun _ => [⟨"Acme", ""⟩])).1 3 (by omega) (by decide) (by decide)
      (fun i hi1 hi2 => by rw [if_neg (by omega)]; decide)
  · exact (c7_scroll_convergence (fun _ => 2)
      (fun _ => [⟨"Acme", ""⟩])).2 (fun i _ => rfl) (by decide)

set_option maxRecDepth 8192 in
/-- C8 (counterexample): a fully successful batch run — every extraction
block succeeded — produces a record all thirteen fields of which are
non-empty.  The record schema has no error field, and no field of this
record is empty, so no field can serve as an explicit error annotation
that is empty exactly on full success. -/
theorem c8_counterexample :
    scrape_batch "Summer 2025" (fun _ _ => some fullPage)
      ["https://www.ycombinator.com/companies/acme-co"] = [fullRow] ∧
    fullRow.batch ≠ "" ∧ fullRow.title ≠ "" ∧ fullRow.short_description ≠ "" ∧
    fullRow.tags ≠ "" ∧ fullRow.founded ≠ "" ∧ fullRow.team_size ≠ "" ∧
    fullRow.location ≠ "" ∧ fullRow.jobs ≠ "" ∧ fullRow.company_link ≠ "" ∧
    fullRow.linkedin_link ≠ "" ∧ fullRow.primary_partner ≠ "" ∧
    fullRow.long_description ≠ "" ∧ fullRow.yc_page ≠ "" := by
  exact ⟨rfl, by decide⟩

/-- C8 (amended): per-record failures never abort either batch — the YC
batch yields exactly one record per input URL whatever each record's
attempts did — and in the LinkedIn per-record scrape the explicit error
field is none exactly when some attempt retrieved a readable page (one
free of the not-found markers) before the retries ran out. -/
theorem c8_failure_isolation :
    (∀ (batch : String) (pages : String → Nat → Option YCPage) (urls : List String),
      (scrape_batch batch pages urls).length = urls.length) ∧
    (∀ (u batch : String) (attempts : Nat → LIAttempt) (max_retries : Nat),
      u ≠ "" →
      ((scrape_linkedin_company (some u) batch attempts max_retries).1.error = none ↔
        liCleanPage attempts max_retries 0 = true)) := by
  constructor
  · intro batch pages urls; simp [scrape_batch]
  · intro u batch attempts maxr hu
    rw [scrape_linkedin_company]
    rw [if_neg hu]
    exact liLoop_error_iff attempts _ batch maxr 0 0

/-- Witness for C8: a two-URL batch whose attempts all fail still yields
two records, and a LinkedIn scrape whose first attempt reads a clean page
carries no error. -/
theorem c8_failure_isolation_witness :
    (scrape_batch "Summer 2025" (fun _ _ => none) ["u1", "u2"]).length = 2 ∧
    ((scrape_linkedin_company (some "linkedin.com/company/acme") "Summer 2025"
        (fun _ => LIAttempt.page "Acme Co | 1,204 followers") 2).1.error = none) := by
  constructor
  · exact c8_failure_isolation.1 "Summer 2025" (fun _ _ => none) ["u1", "u2"]
  · exact (c8_failure_isolation.2 "linkedin.com/company/acme" "Summer 2025"
      (fun _ => LIAttempt.page "Acme Co | 1,204 followers") 2 (by decide)).2 (by decide)

/-- C9: a batch label containing none of the three 2025 season names has an
empty canonical-form set, and the batch-indicator classifier then returns
false on every text. -/
theorem c9_unknown_batch_no_indicator :
    ∀ batch_name : String,
      containsS "Spring 2025" batch_name = false →
      containsS "Summer 2025" batch_name = false →
      containsS "Winter 2025" batch_name = false →
      batch_indicators batch_name = [] ∧
        ∀ text : String, check_yc_batch_indicator text batch_name = false := by
  intro b h1 h2 h3
  have hind : batch_indicators b = [] := by
    rw [batch_indicators, if_neg (by simp [h1]), if_neg (by simp [h2]),
      if_neg (by simp [h3])]
  exact ⟨hind, fun text => by rw [check_yc_batch_indicator, hind]; rfl⟩

/-- Witness for C9: the label `Fall 2024` yields no canonical forms, so
even a text containing its own batch code is classified false. -/
theorem c9_unknown_batch_witness :
    batch_indicators "Fall 2024" = [] ∧
    check_yc_batch_indicator "Acme (YC F24) is hiring" "Fall 2024" = false := by
  have h := c9_unknown_batch_no_indicator "Fall 2024" (by decide) (by decide) (by decide)
  exact ⟨h.1, h.2 "Acme (YC F24) is hiring"⟩

/-- C10: with a missing or empty professional-network URL the per-record
LinkedIn extraction returns immediately — zero driver sessions started,
hence no fetch attempted — the record with empty URL, absent follower
count, indicator false, and the error annotation
`No LinkedIn URL provided`. -/
theorem c10_missing_url_early_return :
    ∀ (url : Option String) (batch : String)
      (attempts : Nat → LIAttempt) (max_retries : Nat),
      (url = none ∨ url = some "") →
      scrape_linkedin_company url batch attempts max_retries =
        ({ linkedin_url := "", followers_count := none,
           has_yc_batch_indicator := false,
           error := some "No LinkedIn URL provided" }, 0) := by
  rintro url batch attempts maxr (rfl | rfl) <;> rfl

/-- Witness for C10: the early return evaluated at a missing URL with a
concrete oracle and retry budget. -/
theorem c10_missing_url_witness :
    scrape_linkedin_company none "Summer 2025" (fun _ => LIAttempt.page "anything") 2 =
      ({ linkedin_url := "", followers_count := none,
         has_yc_batch_indicator := false,
         error := some "No LinkedIn URL provided" }, 0) :=
  c10_missing_url_early_return none "Summer 2025" (fun _ => LIAttempt.page "anything") 2
    (Or.inl rfl)

end Scraper
